import Mathlib

/-!
Verification of the Cybercab fleet cash-flow calculator (src/app.py).

The logic engine of `app.py` (lines 100-131) is straight-line arithmetic on
the sidebar inputs.  We embed it over `ℚ`: every Python float expression is
translated literally, with the same names.  The only fallible operation in
the engine is the float division on line 106 (`paid_miles / (u/100)`), which
in Python raises `ZeroDivisionError` when the divisor equals zero; `evaluate`
models the engine as an `Option`-returning function with exactly that guard.
-/

/-- The sidebar inputs of `app.py` (lines 56-97).  `loan_rate_pct` is the
value typed into the "Interest Rate (%)" field; line 96 of the source divides
it by 100, which `loan_rate` below mirrors. -/
structure AssumptionSet where
  num_cars : ℕ
  price_per_mile : ℚ
  paid_utilization : ℚ
  hours_active : ℚ
  platform_fee : ℚ
  cleaning_budget : ℚ
  insurance_cost : ℚ
  remote_intervention : ℚ
  tire_cost : ℚ
  energy_cost : ℚ
  car_price : ℚ
  down_payment : ℚ
  loan_rate_pct : ℚ
  loan_months : ℕ
deriving DecidableEq

/-- Line 96: `loan_rate = st.number_input("Interest Rate (%)", ...) / 100`. -/
def loan_rate (a : AssumptionSet) : ℚ := a.loan_rate_pct / 100

/-- Line 101: `days_mo = 30.5`. -/
def days_mo : ℚ := 30.5

/-- Line 104: `avg_speed = 18`. -/
def avg_speed : ℚ := 18

/-- Line 102: `hours_mo = hours_active * days_mo`. -/
def hours_mo (a : AssumptionSet) : ℚ := a.hours_active * days_mo

/-- Line 103: `paid_hours_mo = hours_mo * (paid_utilization / 100)`. -/
def paid_hours_mo (a : AssumptionSet) : ℚ := hours_mo a * (a.paid_utilization / 100)

/-- Line 105: `paid_miles_mo_per_car = paid_hours_mo * avg_speed`. -/
def paid_miles_mo_per_car (a : AssumptionSet) : ℚ := paid_hours_mo a * avg_speed

/-- Line 106: `total_miles_mo_per_car = paid_miles_mo_per_car / (paid_utilization / 100)`. -/
def total_miles_mo_per_car (a : AssumptionSet) : ℚ :=
  paid_miles_mo_per_car a / (a.paid_utilization / 100)

/-- Line 107: `deadhead_miles_mo_per_car = total_miles_mo_per_car - paid_miles_mo_per_car`. -/
def deadhead_miles_mo_per_car (a : AssumptionSet) : ℚ :=
  total_miles_mo_per_car a - paid_miles_mo_per_car a

/-- Line 110: `gross_rev_car = paid_miles_mo_per_car * price_per_mile`. -/
def gross_rev_car (a : AssumptionSet) : ℚ := paid_miles_mo_per_car a * a.price_per_mile

/-- Line 111: `platform_cut_car = gross_rev_car * (platform_fee / 100)`. -/
def platform_cut_car (a : AssumptionSet) : ℚ := gross_rev_car a * (a.platform_fee / 100)

/-- Line 112: `net_rev_car = gross_rev_car - platform_cut_car`. -/
def net_rev_car (a : AssumptionSet) : ℚ := gross_rev_car a - platform_cut_car a

/-- Line 114: `var_opex_car = total_miles_mo_per_car * (tire_cost + energy_cost)`. -/
def var_opex_car (a : AssumptionSet) : ℚ :=
  total_miles_mo_per_car a * (a.tire_cost + a.energy_cost)

/-- Line 115: `fixed_opex_car = cleaning_budget + insurance_cost + remote_intervention`. -/
def fixed_opex_car (a : AssumptionSet) : ℚ :=
  a.cleaning_budget + a.insurance_cost + a.remote_intervention

/-- Line 117: `loan_principal = car_price - down_payment`. -/
def loan_principal (a : AssumptionSet) : ℚ := a.car_price - a.down_payment

/-- Line 118: `monthly_rate = loan_rate / 12`. -/
def monthly_rate (a : AssumptionSet) : ℚ := loan_rate a / 12

/-- Lines 119-122: the amortization branch.  The annuity formula when
`loan_rate > 0`, straight-line `principal / loan_months` otherwise. -/
def monthly_debt_car (a : AssumptionSet) : ℚ :=
  if loan_rate a > 0 then
    loan_principal a * (monthly_rate a * (1 + monthly_rate a) ^ a.loan_months) /
      ((1 + monthly_rate a) ^ a.loan_months - 1)
  else
    loan_principal a / (a.loan_months : ℚ)

/-- Line 124: `total_costs_car = var_opex_car + fixed_opex_car + monthly_debt_car`. -/
def total_costs_car (a : AssumptionSet) : ℚ :=
  var_opex_car a + fixed_opex_car a + monthly_debt_car a

/-- Line 125: `cash_flow_car = net_rev_car - total_costs_car`. -/
def cash_flow_car (a : AssumptionSet) : ℚ := net_rev_car a - total_costs_car a

/-- Line 128: `fleet_net_revenue = net_rev_car * num_cars`. -/
def fleet_net_revenue (a : AssumptionSet) : ℚ := net_rev_car a * (a.num_cars : ℚ)

/-- Line 129: `fleet_total_costs = total_costs_car * num_cars`. -/
def fleet_total_costs (a : AssumptionSet) : ℚ := total_costs_car a * (a.num_cars : ℚ)

/-- Line 130: `fleet_cash_flow = cash_flow_car * num_cars`. -/
def fleet_cash_flow (a : AssumptionSet) : ℚ := cash_flow_car a * (a.num_cars : ℚ)

/-- Line 131: `fleet_total_miles = total_miles_mo_per_car * num_cars`. -/
def fleet_total_miles (a : AssumptionSet) : ℚ := total_miles_mo_per_car a * (a.num_cars : ℚ)

/-- The derived output record of one evaluation (spec §3, `CashFlowResult`). -/
structure CashFlowResult where
  paidMiles : ℚ
  totalMiles : ℚ
  deadheadMiles : ℚ
  grossRevenue : ℚ
  platformCut : ℚ
  netRevenue : ℚ
  variableOpex : ℚ
  fixedOpex : ℚ
  monthlyDebt : ℚ
  totalCosts : ℚ
  cashFlowPerCar : ℚ
deriving DecidableEq

/-- The whole engine as one fallible evaluation.  The guard is exactly the
condition under which Python raises `ZeroDivisionError` on line 106: the
divisor `paid_utilization / 100` equals zero. -/
def evaluate (a : AssumptionSet) : Option CashFlowResult :=
  if a.paid_utilization / 100 = 0 then none
  else some
    { paidMiles := paid_miles_mo_per_car a
      totalMiles := total_miles_mo_per_car a
      deadheadMiles := deadhead_miles_mo_per_car a
      grossRevenue := gross_rev_car a
      platformCut := platform_cut_car a
      netRevenue := net_rev_car a
      variableOpex := var_opex_car a
      fixedOpex := fixed_opex_car a
      monthlyDebt := monthly_debt_car a
      totalCosts := total_costs_car a
      cashFlowPerCar := cash_flow_car a }

/-- The default slider/input values of the sidebar (lines 61-97):
price 1.60 $/mi, utilization 55 %, 16 h/day, 30 % platform fee, cleaning 400,
insurance 250, remote rescue 50, tires 0.06 $/mi, energy 0.08 $/mi, vehicle
price 29000, down payment 5000, rate 7.5 %, term 60 months, 1 car. -/
def defaults : AssumptionSet where
  num_cars := 1
  price_per_mile := 1.60
  paid_utilization := 55
  hours_active := 16
  platform_fee := 30
  cleaning_budget := 400
  insurance_cost := 250
  remote_intervention := 50
  tire_cost := 0.06
  energy_cost := 0.08
  car_price := 29000
  down_payment := 5000
  loan_rate_pct := 7.5
  loan_months := 60

/-- Modelled from the spec: §4.1's step-1-through-13 formula chain written as
the spec states it (net revenue via steps 6-8, costs via steps 9-12, cash flow
as step 13), used to compare the code's `cash_flow_car` against the spec's
chain. -/
def spec_chain_cash_flow (a : AssumptionSet) : ℚ :=
  let hoursPerMonth := a.hours_active * 30.5
  let paidHoursPerMonth := hoursPerMonth * (a.paid_utilization / 100)
  let paidMilesPerMonth := paidHoursPerMonth * 18
  let totalMilesPerMonth := paidMilesPerMonth / (a.paid_utilization / 100)
  let grossRevenue := paidMilesPerMonth * a.price_per_mile
  let platformCut := grossRevenue * (a.platform_fee / 100)
  let netRevenue := grossRevenue - platformCut
  let variableOpex := totalMilesPerMonth * (a.tire_cost + a.energy_cost)
  let fixedOpex := a.cleaning_budget + a.insurance_cost + a.remote_intervention
  let r := a.loan_rate_pct / 100 / 12
  let principal := a.car_price - a.down_payment
  let monthlyDebt :=
    if 0 < r then principal * r * (1 + r) ^ a.loan_months / ((1 + r) ^ a.loan_months - 1)
    else principal / (a.loan_months : ℚ)
  netRevenue - (variableOpex + fixedOpex + monthlyDebt)

/-- For nonzero utilization the division on line 106 cancels the
multiplication on line 103: total miles depend only on hours online. -/
lemma total_miles_eq (a : AssumptionSet) (h : a.paid_utilization ≠ 0) :
    total_miles_mo_per_car a = a.hours_active * days_mo * avg_speed := by
  unfold total_miles_mo_per_car paid_miles_mo_per_car paid_hours_mo hours_mo
  field_simp
  ring

/-- C1 counterexample: at the default inputs the engine's monthly loan payment
is 480.9107..., which is not approximately 480.97 — it misses it by about six
cents, far more than rounding of the displayed cents allows. -/
theorem c1_counterexample :
    ¬ |monthly_debt_car defaults - 480.97| < 1 / 100 := by
  norm_num [monthly_debt_car, monthly_rate, loan_rate, loan_principal, defaults, abs]

/-- C1 (amended): the default scenario yields hoursPerMonth = 488,
paidHoursPerMonth = 268.4, paidMilesPerMonth = 4831.2, totalMilesPerMonth =
8784, a monthly rate of exactly 0.00625, a monthly debt equal to the annuity
formula on principal 24000 at rate 0.00625 over 60 months — numerically
≈ 480.91, not ≈ 480.97 — and a cash flow per car equal to the spec's
step-1-through-13 chain (exactly, hence within any tolerance), numerically
between 3000.27 and 3000.28. -/
theorem c1_default_scenario :
    hours_mo defaults = 488 ∧
    paid_hours_mo defaults = 268.4 ∧
    paid_miles_mo_per_car defaults = 4831.2 ∧
    total_miles_mo_per_car defaults = 8784 ∧
    monthly_rate defaults = 0.00625 ∧
    monthly_debt_car defaults =
      24000 * (0.00625 * (1 + 0.00625) ^ 60) / ((1 + 0.00625) ^ 60 - 1) ∧
    480.905 < monthly_debt_car defaults ∧ monthly_debt_car defaults < 480.915 ∧
    cash_flow_car defaults = spec_chain_cash_flow defaults ∧
    3000.27 < cash_flow_car defaults ∧ cash_flow_car defaults < 3000.28 := by
  refine ⟨by norm_num [hours_mo, days_mo, defaults],
    by norm_num [paid_hours_mo, hours_mo, days_mo, defaults],
    by norm_num [paid_miles_mo_per_car, paid_hours_mo, hours_mo, days_mo, avg_speed, defaults],
    by norm_num [total_miles_mo_per_car, paid_miles_mo_per_car, paid_hours_mo, hours_mo,
      days_mo, avg_speed, defaults],
    by norm_num [monthly_rate, loan_rate, defaults],
    by norm_num [monthly_debt_car, monthly_rate, loan_rate, loan_principal, defaults],
    by norm_num [monthly_debt_car, monthly_rate, loan_rate, loan_principal, defaults],
    by norm_num [monthly_debt_car, monthly_rate, loan_rate, loan_principal, defaults],
    by norm_num [cash_flow_car, spec_chain_cash_flow, net_rev_car, gross_rev_car,
      platform_cut_car, total_costs_car, var_opex_car, fixed_opex_car, monthly_debt_car,
      monthly_rate, loan_rate, loan_principal, total_miles_mo_per_car,
      paid_miles_mo_per_car, paid_hours_mo, hours_mo, days_mo, avg_speed, defaults],
    by norm_num [cash_flow_car, net_rev_car, gross_rev_car, platform_cut_car,
      total_costs_car, var_opex_car, fixed_opex_car, monthly_debt_car, monthly_rate,
      loan_rate, loan_principal, total_miles_mo_per_car, paid_miles_mo_per_car,
      paid_hours_mo, hours_mo, days_mo, avg_speed, defaults],
    by norm_num [cash_flow_car, net_rev_car, gross_rev_car, platform_cut_car,
      total_costs_car, var_opex_car, fixed_opex_car, monthly_debt_car, monthly_rate,
      loan_rate, loan_principal, total_miles_mo_per_car, paid_miles_mo_per_car,
      paid_hours_mo, hours_mo, days_mo, avg_speed, defaults]⟩

/-- C2: evaluating with `paidUtilizationPct = 0` hits the divisor-zero guard
of line 106 (Python's `ZeroDivisionError`) and produces no `CashFlowResult` —
in particular no Infinity/NaN value is ever returned for that input. -/
theorem c2_evaluate_zero_utilization (a : AssumptionSet)
    (h : a.paid_utilization = 0) : evaluate a = none := by
  simp [evaluate, h]

/-- C2 witness: the default scenario with utilization forced to 0 evaluates
to no result. -/
theorem c2_witness :
    evaluate { defaults with paid_utilization := 0 } = none :=
  c2_evaluate_zero_utilization { defaults with paid_utilization := 0 } rfl

/-- C9: `totalMilesPerMonth` is independent of the utilization — for any
utilization in (0, 100] it equals `hoursActivePerDay × 30.5 × 18` exactly;
the division on line 106 cancels the multiplication on line 103, so the
utilization only splits total miles into paid and deadhead. -/
theorem c9_total_miles_independent_of_utilization (a : AssumptionSet)
    (h0 : 0 < a.paid_utilization) (h100 : a.paid_utilization ≤ 100) :
    total_miles_mo_per_car a = a.hours_active * 30.5 * 18 := by
  rw [total_miles_eq a (ne_of_gt h0)]
  norm_num [days_mo, avg_speed]

/-- C9 witness: at the defaults (utilization 55, 16 h/day) total miles equal
16 × 30.5 × 18 = 8784. -/
theorem c9_witness :
    (0 < defaults.paid_utilization ∧ defaults.paid_utilization ≤ 100) ∧
    total_miles_mo_per_car defaults = defaults.hours_active * 30.5 * 18 :=
  ⟨⟨by norm_num [defaults], by norm_num [defaults]⟩,
    c9_total_miles_independent_of_utilization defaults (by norm_num [defaults])
      (by norm_num [defaults])⟩

/-- C10: a strictly negative annual rate fails the `loan_rate > 0` test on
line 119, so the straight-line branch `principal / loan_months` is taken —
negative rates are treated exactly like a zero rate, not via the annuity
formula. -/
theorem c10_negative_rate_straight_line (a : AssumptionSet)
    (h : a.loan_rate_pct < 0) :
    monthly_debt_car a = loan_principal a / (a.loan_months : ℚ) := by
  unfold monthly_debt_car
  rw [if_neg]
  intro hpos
  unfold loan_rate at hpos
  nlinarith

/-- C10 witness: at the defaults with rate −1 %, the payment is
24000 / 60 = 400, the straight-line value. -/
theorem c10_witness :
    ({ defaults with loan_rate_pct := -1 } : AssumptionSet).loan_rate_pct < 0 ∧
    monthly_debt_car { defaults with loan_rate_pct := -1 } =
      loan_principal { defaults with loan_rate_pct := -1 } / 60 :=
  ⟨by norm_num [defaults],
    c10_negative_rate_straight_line { defaults with loan_rate_pct := -1 }
      (by norm_num [defaults])⟩

/-- C8: fleet figures are the per-car figures scaled linearly by the number
of vehicles (lines 128-131): cash flow, net revenue, total costs and total
miles each equal their per-car value times `numVehicles`. -/
theorem c8_fleet_scaling_linear (a : AssumptionSet) (h : 1 ≤ a.num_cars) :
    fleet_cash_flow a = cash_flow_car a * (a.num_cars : ℚ) ∧
    fleet_net_revenue a = net_rev_car a * (a.num_cars : ℚ) ∧
    fleet_total_costs a = total_costs_car a * (a.num_cars : ℚ) ∧
    fleet_total_miles a = total_miles_mo_per_car a * (a.num_cars : ℚ) :=
  ⟨rfl, rfl, rfl, rfl⟩

/-- C8 witness: the scaling identities at a three-car fleet. -/
theorem c8_witness :
    1 ≤ ({ defaults with num_cars := 3 } : AssumptionSet).num_cars ∧
    fleet_cash_flow { defaults with num_cars := 3 } =
      cash_flow_car { defaults with num_cars := 3 } * 3 :=
  ⟨by norm_num,
    ((c8_fleet_scaling_linear { defaults with num_cars := 3 } (by norm_num)).1).trans
      (by norm_num)⟩

/-- For a positive rate, `(1+r)^n - 1 < n·r·(1+r)^n` once `n ≥ 1`: the
geometric sum `(1+r)^n - 1 = r·Σ (1+r)^k` is strictly below `n·r·(1+r)^n`. -/
lemma geom_sum_lt (r : ℚ) (hr : 0 < r) :
    ∀ n : ℕ, 1 ≤ n → (1 + r) ^ n - 1 < (n : ℚ) * r * (1 + r) ^ n := by
  intro n hn
  induction n with
  | zero => omega
  | succ m ih =>
    rcases Nat.eq_or_lt_of_le hn with h1 | h1
    · rw [← h1]
      push_cast
      nlinarith
    · have hm : 1 ≤ m := by omega
      have hpow : (1 : ℚ) ≤ (1 + r) ^ m :=
        one_le_pow_of_one_le (show (1 : ℚ) ≤ 1 + r by linarith)
      have := ih hm
      push_cast
      rw [pow_succ]
      nlinarith [mul_pos hr (pow_pos (by linarith : (0:ℚ) < 1 + r) m)]

/-- C5: with `loanTermMonths > 0` and a nonnegative principal, a zero monthly
rate gives `monthlyDebt × term = principal` exactly; a positive monthly rate
gives exactly the annuity formula, and for a positive principal the resulting
payment strictly exceeds the straight-line payment `principal / term`. -/
theorem c5_loan_amortization (a : AssumptionSet) (hterm : 0 < a.loan_months)
    (hprin : 0 ≤ loan_principal a) :
    (monthly_rate a = 0 →
      monthly_debt_car a * (a.loan_months : ℚ) = loan_principal a) ∧
    (0 < monthly_rate a →
      monthly_debt_car a =
        loan_principal a * (monthly_rate a * (1 + monthly_rate a) ^ a.loan_months) /
          ((1 + monthly_rate a) ^ a.loan_months - 1)) ∧
    (0 < monthly_rate a → 0 < loan_principal a →
      loan_principal a / (a.loan_months : ℚ) < monthly_debt_car a) := by
  have hncast : (a.loan_months : ℚ) ≠ 0 := Nat.cast_ne_zero.mpr hterm.ne'
  refine ⟨?_, ?_, ?_⟩
  · intro h0
    have hlr : loan_rate a = 0 := by
      unfold monthly_rate at h0
      field_simp at h0
      exact h0
    unfold monthly_debt_car
    rw [if_neg (by rw [hlr]; exact lt_irrefl 0)]
    exact div_mul_cancel₀ _ hncast
  · intro hr
    have hlr : 0 < loan_rate a := by
      unfold monthly_rate at hr
      linarith
    unfold monthly_debt_car
    rw [if_pos hlr]
  · intro hr hP
    have hlr : 0 < loan_rate a := by
      unfold monthly_rate at hr
      linarith
    unfold monthly_debt_car
    rw [if_pos hlr]
    have hQ1 : (1 : ℚ) < (1 + monthly_rate a) ^ a.loan_months :=
      one_lt_pow (by linarith) hterm.ne'
    have hQ : (0 : ℚ) < (1 + monthly_rate a) ^ a.loan_months - 1 := by linarith
    have hn : (0 : ℚ) < (a.loan_months : ℚ) := Nat.cast_pos.mpr hterm
    have key := geom_sum_lt (monthly_rate a) hr a.loan_months hterm
    rw [div_lt_div_iff hn hQ]
    nlinarith [mul_lt_mul_of_pos_left key hP]

/-- C5 witness: at the defaults (term 60, principal 24000, positive rate) the
zero-rate clause is vacuous, the annuity identity holds, and the payment
strictly exceeds 24000 / 60 = 400. -/
theorem c5_witness :
    0 < defaults.loan_months ∧ 0 ≤ loan_principal defaults ∧
    loan_principal defaults / (defaults.loan_months : ℚ) <
      monthly_debt_car defaults :=
  ⟨by norm_num [defaults], by norm_num [loan_principal, defaults],
    (c5_loan_amortization defaults (by norm_num [defaults])
        (by norm_num [loan_principal, defaults])).2.2
      (by norm_num [monthly_rate, loan_rate, defaults])
      (by norm_num [loan_principal, defaults])⟩

/-- The cash flow of lines 110-125 regrouped over its three mileage/debt
atoms: `paid_miles·price·(1 − fee/100) − total_miles·(tire+energy) − fixed −
debt`. -/
lemma cash_flow_formula (a : AssumptionSet) :
    cash_flow_car a =
      paid_miles_mo_per_car a * a.price_per_mile * (1 - a.platform_fee / 100)
        - total_miles_mo_per_car a * (a.tire_cost + a.energy_cost)
        - (a.cleaning_budget + a.insurance_cost + a.remote_intervention)
        - monthly_debt_car a := by
  simp only [cash_flow_car, net_rev_car, gross_rev_car, platform_cut_car,
    total_costs_car, var_opex_car, fixed_opex_car]
  ring

/-- C3: with the other assumptions fixed at §3-invariant values (price and
hours nonnegative, platform fee at most 100 %), the cash flow per car is
non-decreasing in the paid utilization over (0, 100]. -/
theorem c3_cash_flow_mono_utilization (a : AssumptionSet) (u1 u2 : ℚ)
    (h1 : 0 < u1) (h12 : u1 ≤ u2) (h2 : u2 ≤ 100)
    (hprice : 0 ≤ a.price_per_mile) (hhours : 0 ≤ a.hours_active)
    (hfee : a.platform_fee ≤ 100) :
    cash_flow_car { a with paid_utilization := u1 } ≤
      cash_flow_car { a with paid_utilization := u2 } := by
  have hu1 : ({ a with paid_utilization := u1 } : AssumptionSet).paid_utilization ≠ 0 :=
    ne_of_gt h1
  have hu2 : ({ a with paid_utilization := u2 } : AssumptionSet).paid_utilization ≠ 0 :=
    ne_of_gt (lt_of_lt_of_le h1 h12)
  rw [cash_flow_formula, cash_flow_formula,
    total_miles_eq _ hu1, total_miles_eq _ hu2]
  unfold paid_miles_mo_per_car paid_hours_mo hours_mo
  simp only [show monthly_debt_car { a with paid_utilization := u1 } =
      monthly_debt_car a from rfl,
    show monthly_debt_car { a with paid_utilization := u2 } =
      monthly_debt_car a from rfl]
  have hK : 0 ≤ a.hours_active * days_mo * avg_speed * a.price_per_mile *
      (1 - a.platform_fee / 100) := by
    have hf : (0 : ℚ) ≤ 1 - a.platform_fee / 100 := by linarith
    have hd : (0 : ℚ) ≤ days_mo := by norm_num [days_mo]
    have hs : (0 : ℚ) ≤ avg_speed := by norm_num [avg_speed]
    exact mul_nonneg (mul_nonneg (mul_nonneg (mul_nonneg hhours hd) hs) hprice) hf
  nlinarith [mul_nonneg hK (sub_nonneg.mpr h12)]

/-- C3 witness: raising the default utilization from 40 to 70 does not lower
the per-car cash flow. -/
theorem c3_witness :
    (0 : ℚ) < 40 ∧ (40 : ℚ) ≤ 70 ∧ (70 : ℚ) ≤ 100 ∧
    cash_flow_car { defaults with paid_utilization := 40 } ≤
      cash_flow_car { defaults with paid_utilization := 70 } :=
  ⟨by norm_num, by norm_num, by norm_num,
    c3_cash_flow_mono_utilization defaults 40 70 (by norm_num) (by norm_num)
      (by norm_num) (by norm_num [defaults]) (by norm_num [defaults])
      (by norm_num [defaults])⟩

/-- C7: holding the other assumptions fixed, the cash flow per car does not
decrease when the price per mile grows (given nonnegative paid miles and a
platform fee of at most 100 %), and does not increase when the platform fee,
tire cost, energy cost, cleaning, insurance or remote-rescue budget grows
(given nonnegative gross revenue and total miles). -/
theorem c7_cash_flow_monotonicities (a : AssumptionSet) (d : ℚ) (hd : 0 ≤ d)
    (hpaid : 0 ≤ paid_miles_mo_per_car a) (hfee : a.platform_fee ≤ 100)
    (hgross : 0 ≤ gross_rev_car a) (htotal : 0 ≤ total_miles_mo_per_car a) :
    cash_flow_car a ≤
      cash_flow_car { a with price_per_mile := a.price_per_mile + d } ∧
    cash_flow_car { a with platform_fee := a.platform_fee + d } ≤ cash_flow_car a ∧
    cash_flow_car { a with tire_cost := a.tire_cost + d } ≤ cash_flow_car a ∧
    cash_flow_car { a with energy_cost := a.energy_cost + d } ≤ cash_flow_car a ∧
    cash_flow_car { a with cleaning_budget := a.cleaning_budget + d } ≤ cash_flow_car a ∧
    cash_flow_car { a with insurance_cost := a.insurance_cost + d } ≤ cash_flow_car a ∧
    cash_flow_car { a with remote_intervention := a.remote_intervention + d } ≤
      cash_flow_car a := by
  have hfee' : (0 : ℚ) ≤ 1 - a.platform_fee / 100 := by linarith
  refine ⟨?_, ?_, ?_, ?_, ?_, ?_, ?_⟩
  · rw [cash_flow_formula, cash_flow_formula]
    simp only [show paid_miles_mo_per_car { a with price_per_mile := a.price_per_mile + d } =
        paid_miles_mo_per_car a from rfl,
      show total_miles_mo_per_car { a with price_per_mile := a.price_per_mile + d } =
        total_miles_mo_per_car a from rfl,
      show monthly_debt_car { a with price_per_mile := a.price_per_mile + d } =
        monthly_debt_car a from rfl]
    nlinarith [mul_nonneg (mul_nonneg hpaid hd) hfee']
  · rw [cash_flow_formula, cash_flow_formula]
    simp only [show paid_miles_mo_per_car { a with platform_fee := a.platform_fee + d } =
        paid_miles_mo_per_car a from rfl,
      show total_miles_mo_per_car { a with platform_fee := a.platform_fee + d } =
        total_miles_mo_per_car a from rfl,
      show monthly_debt_car { a with platform_fee := a.platform_fee + d } =
        monthly_debt_car a from rfl]
    unfold gross_rev_car at hgross
    nlinarith [mul_nonneg hgross hd]
  · rw [cash_flow_formula, cash_flow_formula]
    simp only [show paid_miles_mo_per_car { a with tire_cost := a.tire_cost + d } =
        paid_miles_mo_per_car a from rfl,
      show total_miles_mo_per_car { a with tire_cost := a.tire_cost + d } =
        total_miles_mo_per_car a from rfl,
      show monthly_debt_car { a with tire_cost := a.tire_cost + d } =
        monthly_debt_car a from rfl]
    nlinarith [mul_nonneg htotal hd]
  · rw [cash_flow_formula, cash_flow_formula]
    simp only [show paid_miles_mo_per_car { a with energy_cost := a.energy_cost + d } =
        paid_miles_mo_per_car a from rfl,
      show total_miles_mo_per_car { a with energy_cost := a.energy_cost + d } =
        total_miles_mo_per_car a from rfl,
      show monthly_debt_car { a with energy_cost := a.energy_cost + d } =
        monthly_debt_car a from rfl]
    nlinarith [mul_nonneg htotal hd]
  · rw [cash_flow_formula, cash_flow_formula]
    simp only [show paid_miles_mo_per_car { a with cleaning_budget := a.cleaning_budget + d } =
        paid_miles_mo_per_car a from rfl,
      show total_miles_mo_per_car { a with cleaning_budget := a.cleaning_budget + d } =
        total_miles_mo_per_car a from rfl,
      show monthly_debt_car { a with cleaning_budget := a.cleaning_budget + d } =
        monthly_debt_car a from rfl]
    linarith
  · rw [cash_flow_formula, cash_flow_formula]
    simp only [show paid_miles_mo_per_car { a with insurance_cost := a.insurance_cost + d } =
        paid_miles_mo_per_car a from rfl,
      show total_miles_mo_per_car { a with insurance_cost := a.insurance_cost + d } =
        total_miles_mo_per_car a from rfl,
      show monthly_debt_car { a with insurance_cost := a.insurance_cost + d } =
        monthly_debt_car a from rfl]
    linarith
  · rw [cash_flow_formula, cash_flow_formula]
    simp only [show paid_miles_mo_per_car
        { a with remote_intervention := a.remote_intervention + d } =
        paid_miles_mo_per_car a from rfl,
      show total_miles_mo_per_car
        { a with remote_intervention := a.remote_intervention + d } =
        total_miles_mo_per_car a from rfl,
      show monthly_debt_car { a with remote_intervention := a.remote_intervention + d } =
        monthly_debt_car a from rfl]
    linarith

/-- C7 witness: at the defaults, a price increase of 0.10 does not lower the
cash flow, and a platform-fee increase of 0.10 does not raise it. -/
theorem c7_witness :
    ((0 : ℚ) ≤ 1 / 10 ∧ 0 ≤ paid_miles_mo_per_car defaults ∧
      defaults.platform_fee ≤ 100 ∧ 0 ≤ gross_rev_car defaults ∧
      0 ≤ total_miles_mo_per_car defaults) ∧
    cash_flow_car defaults ≤
      cash_flow_car { defaults with price_per_mile := defaults.price_per_mile + 1 / 10 } ∧
    cash_flow_car { defaults with platform_fee := defaults.platform_fee + 1 / 10 } ≤
      cash_flow_car defaults :=
  ⟨⟨by norm_num,
    by norm_num [paid_miles_mo_per_car, paid_hours_mo, hours_mo, days_mo, avg_speed, defaults],
    by norm_num [defaults],
    by norm_num [gross_rev_car, paid_miles_mo_per_car, paid_hours_mo, hours_mo, days_mo,
      avg_speed, defaults],
    by norm_num [total_miles_mo_per_car, paid_miles_mo_per_car, paid_hours_mo, hours_mo,
      days_mo, avg_speed, defaults]⟩,
   (c7_cash_flow_monotonicities defaults (1 / 10) (by norm_num)
      (by norm_num [paid_miles_mo_per_car, paid_hours_mo, hours_mo, days_mo, avg_speed,
        defaults])
      (by norm_num [defaults])
      (by norm_num [gross_rev_car, paid_miles_mo_per_car, paid_hours_mo, hours_mo, days_mo,
        avg_speed, defaults])
      (by norm_num [total_miles_mo_per_car, paid_miles_mo_per_car, paid_hours_mo, hours_mo,
        days_mo, avg_speed, defaults])).1,
   (c7_cash_flow_monotonicities defaults (1 / 10) (by norm_num)
      (by norm_num [paid_miles_mo_per_car, paid_hours_mo, hours_mo, days_mo, avg_speed,
        defaults])
      (by norm_num [defaults])
      (by norm_num [gross_rev_car, paid_miles_mo_per_car, paid_hours_mo, hours_mo, days_mo,
        avg_speed, defaults])
      (by norm_num [total_miles_mo_per_car, paid_miles_mo_per_car, paid_hours_mo, hours_mo,
        days_mo, avg_speed, defaults])).2.1⟩

/-- C6 counterexample: with 0 hours online and utilization 50 — values that
satisfy the cited §3 invariants — paid and total miles are both 0, so they
are equal although the utilization is not 100. -/
theorem c6_counterexample :
    (0 < ({ defaults with hours_active := 0, paid_utilization := 50 } :
        AssumptionSet).paid_utilization ∧
      ({ defaults with hours_active := 0, paid_utilization := 50 } :
        AssumptionSet).paid_utilization ≤ 100 ∧
      0 ≤ ({ defaults with hours_active := 0, paid_utilization := 50 } :
        AssumptionSet).hours_active) ∧
    total_miles_mo_per_car { defaults with hours_active := 0, paid_utilization := 50 } =
      paid_miles_mo_per_car { defaults with hours_active := 0, paid_utilization := 50 } ∧
    ({ defaults with hours_active := 0, paid_utilization := 50 } :
      AssumptionSet).paid_utilization ≠ 100 := by
  norm_num [total_miles_mo_per_car, paid_miles_mo_per_car, paid_hours_mo, hours_mo,
    days_mo, avg_speed, defaults]

/-- C6 (amended): under the cited invariants, `totalMilesPerMonth ≥
paidMilesPerMonth ≥ 0`, and the two are equal exactly when the utilization is
100 or the hours online per day are 0 (in which case both mileages vanish). -/
theorem c6_miles_ordering (a : AssumptionSet)
    (h0 : 0 < a.paid_utilization) (h100 : a.paid_utilization ≤ 100)
    (hh : 0 ≤ a.hours_active) :
    0 ≤ paid_miles_mo_per_car a ∧
    paid_miles_mo_per_car a ≤ total_miles_mo_per_car a ∧
    (total_miles_mo_per_car a = paid_miles_mo_per_car a ↔
      a.paid_utilization = 100 ∨ a.hours_active = 0) := by
  have hu : a.paid_utilization ≠ 0 := ne_of_gt h0
  rw [total_miles_eq a hu]
  unfold paid_miles_mo_per_car paid_hours_mo hours_mo
  refine ⟨?_, ?_, ?_⟩
  · have : (0 : ℚ) ≤ a.paid_utilization / 100 := by positivity
    have hd : (0 : ℚ) ≤ days_mo := by norm_num [days_mo]
    have hs : (0 : ℚ) ≤ avg_speed := by norm_num [avg_speed]
    exact mul_nonneg (mul_nonneg (mul_nonneg hh hd) this) hs
  · have hf : (0 : ℚ) ≤ 1 - a.paid_utilization / 100 := by linarith
    have hd : (0 : ℚ) ≤ days_mo := by norm_num [days_mo]
    have hs : (0 : ℚ) ≤ avg_speed := by norm_num [avg_speed]
    nlinarith [mul_nonneg (mul_nonneg (mul_nonneg hh hd) hs) hf]
  · constructor
    · intro heq
      rw [days_mo, avg_speed] at heq
      have key : a.hours_active * (100 - a.paid_utilization) * (549 / 100) = 0 := by
        linear_combination heq
      rcases mul_eq_zero.mp key with key2 | habs
      · rcases mul_eq_zero.mp key2 with hA | hB
        · exact Or.inr hA
        · exact Or.inl (by linarith)
      · norm_num at habs
    · rintro (h | h) <;> rw [h] <;> ring

/-- C6 witness: at the defaults (utilization 55, 16 h/day) miles are
nonnegative, paid miles do not exceed total miles, and the two differ since
the utilization is neither 100 nor the hours zero. -/
theorem c6_witness :
    (0 < defaults.paid_utilization ∧ defaults.paid_utilization ≤ 100 ∧
      0 ≤ defaults.hours_active) ∧
    0 ≤ paid_miles_mo_per_car defaults ∧
    paid_miles_mo_per_car defaults ≤ total_miles_mo_per_car defaults :=
  ⟨⟨by norm_num [defaults], by norm_num [defaults], by norm_num [defaults]⟩,
    (c6_miles_ordering defaults (by norm_num [defaults]) (by norm_num [defaults])
      (by norm_num [defaults])).1,
    (c6_miles_ordering defaults (by norm_num [defaults]) (by norm_num [defaults])
      (by norm_num [defaults])).2.1⟩

/-- One cell of the heatmap recomputation (lines 181-187): the loop body
re-runs the core logic at price `p` and utilization `u`, reusing the base
scenario's `hours_mo`, `platform_fee`, tire/energy costs, `fixed_opex_car`
and `monthly_debt_car`. -/
def heatmap_cell (a : AssumptionSet) (p u : ℚ) : ℚ :=
  let pm := hours_mo a * (u / 100) * avg_speed
  let tm := pm / (u / 100)
  let gr := pm * p
  let nr := gr * (1 - a.platform_fee / 100)
  let vc := tm * (a.tire_cost + a.energy_cost)
  let tc := vc + fixed_opex_car a + monthly_debt_car a
  nr - tc

/-- Line 174: `x_util = list(range(30, 85, 5))`. -/
def x_util : List ℚ := [30, 35, 40, 45, 50, 55, 60, 65, 70, 75, 80]

/-- Line 175: `y_price = [1.0, 1.25, 1.5, 1.75, 2.0, 2.5, 3.0]`. -/
def y_price : List ℚ := [1, 1.25, 1.5, 1.75, 2, 2.5, 3]

/-- Lines 176-188: the heatmap matrix, one row per price, one column per
utilization value. -/
def z_data (a : AssumptionSet) : List (List ℚ) :=
  y_price.map (fun p => x_util.map (fun u => heatmap_cell a p u))

/-- C4: every cell of the sensitivity matrix recomputation equals the
calculator's cash flow per car on the base assumptions with the two swept
fields substituted — the loop body of lines 181-187 agrees exactly with the
step chain of lines 100-125 at `pricePerMile = p`, `paidUtilizationPct = u`. -/
theorem c4_heatmap_cell_eq_engine (a : AssumptionSet) (p u : ℚ) (hu : 0 < u) :
    heatmap_cell a p u =
      cash_flow_car { a with price_per_mile := p, paid_utilization := u } := by
  rw [cash_flow_formula]
  simp only [show monthly_debt_car { a with price_per_mile := p, paid_utilization := u } =
      monthly_debt_car a from rfl]
  unfold heatmap_cell total_miles_mo_per_car paid_miles_mo_per_car paid_hours_mo
    hours_mo fixed_opex_car
  ring

/-- C4 witness: the cell at price 2 $/mi and utilization 50 % of the default
base equals the engine's cash flow at those substituted assumptions. -/
theorem c4_witness :
    (0 : ℚ) < 50 ∧
    heatmap_cell defaults 2 50 =
      cash_flow_car { defaults with price_per_mile := 2, paid_utilization := 50 } :=
  ⟨by norm_num, c4_heatmap_cell_eq_engine defaults 2 50 (by norm_num)⟩
